import Mathlib

/-!
# Verification of the loan-calculator core (script.js)

Shallow embedding of the numeric core of `script.js`:
`calculateAmortization`, `calculateMonthlyPayment` and
`calculateRefinanceBreakEven`.  JavaScript numbers are modelled as exact
rationals (ℚ); `Math.round(x * 100) / 100` is modelled by `round2`
(JavaScript `Math.round` rounds half toward +∞, i.e. `⌊x + 1/2⌋`, which
is exactly Mathlib's `round` on ℚ).  The `while` loop of
`calculateAmortization` (guard `balance > 0.01 && monthsToPayoff <
maxMonths`, line 92) is embedded as a fuel-indexed recursion; the fuel
`⌈maxMonths⌉.toNat` dominates the number of iterations the guard can
allow, so the fuel never runs out while the guard still holds
(`amortLoop_not_guard`) and the recursion is an exact model of the loop.
A `throw` is modelled as `Except.error`: a failed call carries no
result.  The `date` field of a payment record and the `startDate`
parameter are calendar bookkeeping with no influence on any numeric
output and are omitted from the model.
-/

attribute [local semireducible] Rat.add Rat.sub Rat.mul Rat.inv Rat.ofScientific

/-- `Math.round (x * 100) / 100` from the source, on exact rationals.
JavaScript `Math.round` rounds half toward +∞, i.e. `⌊x + 1/2⌋`,
which is Mathlib's `round`. -/
def round2 (x : ℚ) : ℚ := (round (x * 100) : ℤ) / 100

/-- `Math.pow base e` for the exponents the source uses
(`totalMonths = termYears * 12`).  Exact when the exponent is a
nonnegative integer; for a fractional exponent the true value is a
transcendental real that ℚ cannot represent, modelled as 0 (no claim
settled below depends on the value of that branch: every concrete
evaluation below uses an integer number of months, and the general
theorems touching this expression hold for every value of it). -/
def jsPowQ (base e : ℚ) : ℚ :=
  if e.den = 1 ∧ 0 ≤ e.num then base ^ e.num.toNat else 0

/-- One row of the amortization schedule (lines 131-137 of script.js);
the `date` field is omitted (calendar-only, no numeric influence). -/
structure PaymentRecord where
  paymentNumber : ℕ
  interestPaid : ℚ
  principalPaid : ℚ
  remainingBalance : ℚ
  deriving Repr, DecidableEq

/-- The value returned by `calculateAmortization` (lines 150-156). -/
structure AmortizationResult where
  monthsToPayoff : ℕ
  totalInterestPaid : ℚ
  totalInterestSaved : ℚ
  monthlyPayment : ℚ
  schedule : List PaymentRecord
  deriving Repr, DecidableEq

/-- The mutable state of the simulation loop (lines 82-86). -/
structure LoopState where
  balance : ℚ
  totalInterestPaid : ℚ
  monthsToPayoff : ℕ
  schedule : List PaymentRecord
  deriving Repr, DecidableEq

/-- One iteration of the `while` body (lines 93-140 of script.js). -/
def amortStep (monthlyRate monthlyPayment extraMonthlyPayment : ℚ)
    (s : LoopState) : LoopState :=
  let monthsToPayoff := s.monthsToPayoff + 1
  let monthlyInterest := s.balance * monthlyRate
  let totalInterestPaid := s.totalInterestPaid + monthlyInterest
  let principalPayment := monthlyPayment - monthlyInterest
  let totalPrincipalPayment := principalPayment + extraMonthlyPayment
  let interestPaid := round2 monthlyInterest
  let principalPaid := round2 totalPrincipalPayment
  let balance := s.balance - totalPrincipalPayment
  let totalInterestPaid2 :=
    if balance < 0 then max 0 (totalInterestPaid - |balance|)
    else totalInterestPaid
  let remainingBalance := round2 (if balance < 0 then 0 else balance)
  { balance := remainingBalance
    totalInterestPaid := totalInterestPaid2
    monthsToPayoff := monthsToPayoff
    schedule := s.schedule ++
      [{ paymentNumber := monthsToPayoff
         interestPaid := interestPaid
         principalPaid := principalPaid
         remainingBalance := remainingBalance }] }

/-- The guard of the `while` loop (line 92 of script.js):
`balance > 0.01 && monthsToPayoff < maxMonths`. -/
def amortGuard (maxMonths : ℚ) (s : LoopState) : Prop :=
  1 / 100 < s.balance ∧ (s.monthsToPayoff : ℚ) < maxMonths

instance (maxMonths : ℚ) (s : LoopState) : Decidable (amortGuard maxMonths s) :=
  inferInstanceAs (Decidable (_ ∧ _))

/-- The `while` loop of lines 92-141, as fuel-indexed recursion. -/
def amortLoop (monthlyRate monthlyPayment extraMonthlyPayment maxMonths : ℚ) :
    ℕ → LoopState → LoopState
  | 0, s => s
  | fuel + 1, s =>
    if amortGuard maxMonths s then
      amortLoop monthlyRate monthlyPayment extraMonthlyPayment maxMonths fuel
        (amortStep monthlyRate monthlyPayment extraMonthlyPayment s)
    else s

/-- The standard monthly payment as computed inside `calculateAmortization`
(lines 60-76 of script.js): both the zero-rate and the annuity branch are
rounded to 2 decimals by line 76. -/
def amortMonthlyPayment (principal annualRate termYears : ℚ) : ℚ :=
  let monthlyRate := annualRate / 100 / 12
  let totalMonths := termYears * 12
  round2 (if monthlyRate = 0 then principal / totalMonths
    else
      let compoundFactor := jsPowQ (1 + monthlyRate) totalMonths
      principal * (monthlyRate * compoundFactor) / (compoundFactor - 1))

/-- The state of the simulation loop after it exits (lines 82-141):
initial state `balance = principal`, `totalInterestPaid = 0`,
`monthsToPayoff = 0`, empty schedule, run with `maxMonths = totalMonths * 2`. -/
def amortFinalState (principal annualRate termYears extraMonthlyPayment : ℚ) : LoopState :=
  let monthlyRate := annualRate / 100 / 12
  let totalMonths := termYears * 12
  let maxMonths := totalMonths * 2
  amortLoop monthlyRate (amortMonthlyPayment principal annualRate termYears)
    extraMonthlyPayment maxMonths (Int.toNat ⌈maxMonths⌉)
    { balance := principal, totalInterestPaid := 0, monthsToPayoff := 0, schedule := [] }

/-- The result object built on lines 143-156 of script.js. -/
def amortResult (principal annualRate termYears extraMonthlyPayment : ℚ) :
    AmortizationResult :=
  let monthlyPayment := amortMonthlyPayment principal annualRate termYears
  let totalMonths := termYears * 12
  let totalInterestWithoutExtra := monthlyPayment * totalMonths - principal
  let final := amortFinalState principal annualRate termYears extraMonthlyPayment
  let totalInterestPaid := round2 final.totalInterestPaid
  { monthsToPayoff := final.monthsToPayoff
    totalInterestPaid := totalInterestPaid
    totalInterestSaved := round2 (max 0 (totalInterestWithoutExtra - totalInterestPaid))
    monthlyPayment := monthlyPayment
    schedule := final.schedule }

/-- `calculateAmortization` (lines 53-157 of script.js). -/
def calculateAmortization (principal annualRate termYears : ℚ)
    (extraMonthlyPayment : ℚ := 0) : Except String AmortizationResult :=
  if principal ≤ 0 ∨ annualRate < 0 ∨ termYears ≤ 0 ∨ extraMonthlyPayment < 0 then
    Except.error "Invalid input: All values must be positive (or zero for extra payment)"
  else
    Except.ok (amortResult principal annualRate termYears extraMonthlyPayment)

/-- `calculateMonthlyPayment` (lines 214-230 of script.js).  Note that
the zero-rate branch returns `principal / totalMonths` unrounded, while
the annuity branch is rounded to 2 decimals. -/
def calculateMonthlyPayment (principal annualRate termYears : ℚ) : ℚ :=
  if principal ≤ 0 ∨ termYears ≤ 0 then 0
  else
    let monthlyRate := annualRate / 100 / 12
    let totalMonths := termYears * 12
    if monthlyRate = 0 then principal / totalMonths
    else
      let compoundFactor := jsPowQ (1 + monthlyRate) totalMonths
      round2 (principal * (monthlyRate * compoundFactor) / (compoundFactor - 1))

/-- The value returned by `calculateRefinanceBreakEven` (lines 254-273). -/
structure RefinanceBreakEven where
  breakEvenMonths : Option ℚ
  monthlySavings : ℚ
  totalSavingsOverRemainingTerm : Option ℚ
  isValid : Bool
  deriving Repr, DecidableEq

/-- `calculateRefinanceBreakEven` (lines 243-274 of script.js). -/
def calculateRefinanceBreakEven
    (originalMonthlyPayment newMonthlyPayment closingCosts : ℚ) :
    Except String RefinanceBreakEven :=
  if originalMonthlyPayment ≤ 0 ∨ newMonthlyPayment < 0 ∨ closingCosts < 0 then
    Except.error "Invalid input: Monthly payments must be positive and closing costs must be non-negative"
  else
    let monthlySavings := originalMonthlyPayment - newMonthlyPayment
    if monthlySavings ≤ 0 then
      Except.ok
        { breakEvenMonths := none
          monthlySavings := monthlySavings
          totalSavingsOverRemainingTerm := none
          isValid := false }
    else
      Except.ok
        { breakEvenMonths := some (round2 (closingCosts / monthlySavings))
          monthlySavings := round2 monthlySavings
          totalSavingsOverRemainingTerm := none
          isValid := true }

/-- A rational is a whole number of cents, i.e. rounded to 2 decimal places. -/
def isCents (q : ℚ) : Prop := (q * 100).den = 1

instance (q : ℚ) : Decidable (isCents q) := inferInstanceAs (Decidable (_ = _))

deriving instance DecidableEq for Except

/-! ## Helper lemmas -/

theorem round2_mono {x y : ℚ} (h : x ≤ y) : round2 x ≤ round2 y := by
  unfold round2
  have hr : round (x * 100) ≤ round (y * 100) := by
    rw [round_eq, round_eq]
    exact Int.floor_mono (by linarith)
  have : ((round (x * 100) : ℤ) : ℚ) ≤ ((round (y * 100) : ℤ) : ℚ) := by exact_mod_cast hr
  linarith

theorem round2_nonneg {x : ℚ} (h : 0 ≤ x) : 0 ≤ round2 x := by
  have h0 : round2 0 = 0 := by norm_num [round2]
  calc (0 : ℚ) = round2 0 := h0.symm
    _ ≤ round2 x := round2_mono h

theorem isCents_round2 (x : ℚ) : isCents (round2 x) := by
  unfold isCents round2
  rw [div_mul_cancel₀ _ (by norm_num : (100 : ℚ) ≠ 0)]
  exact Rat.den_intCast _

/-- The balance field written by one loop iteration, in closed form. -/
theorem amortStep_balance (monthlyRate monthlyPayment extraMonthlyPayment : ℚ)
    (s : LoopState) :
    (amortStep monthlyRate monthlyPayment extraMonthlyPayment s).balance =
      round2 (if s.balance - (monthlyPayment - s.balance * monthlyRate + extraMonthlyPayment) < 0
        then 0
        else s.balance - (monthlyPayment - s.balance * monthlyRate + extraMonthlyPayment)) := rfl

theorem amortStep_months (monthlyRate monthlyPayment extraMonthlyPayment : ℚ)
    (s : LoopState) :
    (amortStep monthlyRate monthlyPayment extraMonthlyPayment s).monthsToPayoff =
      s.monthsToPayoff + 1 := rfl

theorem amortStep_balance_nonneg (monthlyRate monthlyPayment extraMonthlyPayment : ℚ)
    (s : LoopState) :
    0 ≤ (amortStep monthlyRate monthlyPayment extraMonthlyPayment s).balance := by
  rw [amortStep_balance]
  apply round2_nonneg
  split
  · exact le_refl 0
  · linarith [not_lt.mp (by assumption :
      ¬ s.balance - (monthlyPayment - s.balance * monthlyRate + extraMonthlyPayment) < 0)]

theorem amortStep_balance_mono {monthlyRate monthlyPayment e1 e2 : ℚ}
    {s1 s2 : LoopState} (hr : 0 ≤ monthlyRate) (hb : s2.balance ≤ s1.balance)
    (he : e1 ≤ e2) :
    (amortStep monthlyRate monthlyPayment e2 s2).balance ≤
      (amortStep monthlyRate monthlyPayment e1 s1).balance := by
  rw [amortStep_balance, amortStep_balance]
  apply round2_mono
  have hmul : s2.balance * monthlyRate ≤ s1.balance * monthlyRate :=
    mul_le_mul_of_nonneg_right hb hr
  have hx : s2.balance - (monthlyPayment - s2.balance * monthlyRate + e2) ≤
      s1.balance - (monthlyPayment - s1.balance * monthlyRate + e1) := by linarith
  split
  · split
    · exact le_refl 0
    · linarith [not_lt.mp (by assumption :
        ¬ s1.balance - (monthlyPayment - s1.balance * monthlyRate + e1) < 0)]
  · split
    · linarith [not_lt.mp (by assumption :
        ¬ s2.balance - (monthlyPayment - s2.balance * monthlyRate + e2) < 0)]
    · exact hx

theorem amortLoop_zero (monthlyRate monthlyPayment extraMonthlyPayment maxMonths : ℚ)
    (s : LoopState) :
    amortLoop monthlyRate monthlyPayment extraMonthlyPayment maxMonths 0 s = s := rfl

theorem amortLoop_succ (monthlyRate monthlyPayment extraMonthlyPayment maxMonths : ℚ)
    (fuel : ℕ) (s : LoopState) :
    amortLoop monthlyRate monthlyPayment extraMonthlyPayment maxMonths (fuel + 1) s =
      if amortGuard maxMonths s then
        amortLoop monthlyRate monthlyPayment extraMonthlyPayment maxMonths fuel
          (amortStep monthlyRate monthlyPayment extraMonthlyPayment s)
      else s := rfl

/-- Any property preserved by one iteration is preserved by the loop. -/
theorem amortLoop_preserves (monthlyRate monthlyPayment extraMonthlyPayment maxMonths : ℚ)
    (P : LoopState → Prop)
    (hstep : ∀ t, P t → P (amortStep monthlyRate monthlyPayment extraMonthlyPayment t)) :
    ∀ (fuel : ℕ) (s : LoopState), P s →
      P (amortLoop monthlyRate monthlyPayment extraMonthlyPayment maxMonths fuel s)
  | 0, s, hs => hs
  | fuel + 1, s, hs => by
    rw [amortLoop_succ]
    split
    · exact amortLoop_preserves monthlyRate monthlyPayment extraMonthlyPayment maxMonths
        P hstep fuel _ (hstep s hs)
    · exact hs

theorem amortLoop_months_le (monthlyRate monthlyPayment extraMonthlyPayment maxMonths : ℚ) :
    ∀ (fuel : ℕ) (s : LoopState),
      s.monthsToPayoff ≤
        (amortLoop monthlyRate monthlyPayment extraMonthlyPayment maxMonths fuel s).monthsToPayoff
  | 0, s => le_refl _
  | fuel + 1, s => by
    rw [amortLoop_succ]
    split
    · calc s.monthsToPayoff
          ≤ s.monthsToPayoff + 1 := Nat.le_succ _
        _ = (amortStep monthlyRate monthlyPayment extraMonthlyPayment s).monthsToPayoff :=
            (amortStep_months _ _ _ _).symm
        _ ≤ _ := amortLoop_months_le monthlyRate monthlyPayment extraMonthlyPayment maxMonths fuel _
    · exact le_refl _

theorem amortLoop_months_bound (monthlyRate monthlyPayment extraMonthlyPayment maxMonths : ℚ) :
    ∀ (fuel : ℕ) (s : LoopState),
      (amortLoop monthlyRate monthlyPayment extraMonthlyPayment maxMonths fuel s).monthsToPayoff ≤
        s.monthsToPayoff + fuel
  | 0, s => le_refl _
  | fuel + 1, s => by
    rw [amortLoop_succ]
    split
    · have := amortLoop_months_bound monthlyRate monthlyPayment extraMonthlyPayment maxMonths
        fuel (amortStep monthlyRate monthlyPayment extraMonthlyPayment s)
      rw [amortStep_months] at this
      omega
    · omega

/-- When the fuel dominates the remaining room below `maxMonths`, the
loop only stops with the guard false: the fuel never cuts the loop
short, so the fuel-indexed recursion is an exact model of the `while`. -/
theorem amortLoop_not_guard (monthlyRate monthlyPayment extraMonthlyPayment maxMonths : ℚ) :
    ∀ (fuel : ℕ) (s : LoopState),
      maxMonths ≤ (s.monthsToPayoff : ℚ) + (fuel : ℚ) →
      ¬ amortGuard maxMonths
        (amortLoop monthlyRate monthlyPayment extraMonthlyPayment maxMonths fuel s)
  | 0, s, hfuel => by
    rw [amortLoop_zero]
    intro hg
    have := hg.2
    push_cast at hfuel
    linarith
  | fuel + 1, s, hfuel => by
    rw [amortLoop_succ]
    split
    · apply amortLoop_not_guard monthlyRate monthlyPayment extraMonthlyPayment maxMonths fuel
      rw [amortStep_months]
      push_cast
      push_cast at hfuel
      linarith
    · assumption

/-- A larger extra payment keeps the running balance pointwise no
larger, hence the loop never runs longer. -/
theorem amortLoop_months_mono {monthlyRate monthlyPayment e1 e2 maxMonths : ℚ}
    (hr : 0 ≤ monthlyRate) (he : e1 ≤ e2) :
    ∀ (fuel : ℕ) (s1 s2 : LoopState),
      s1.monthsToPayoff = s2.monthsToPayoff → s2.balance ≤ s1.balance →
      (amortLoop monthlyRate monthlyPayment e2 maxMonths fuel s2).monthsToPayoff ≤
        (amortLoop monthlyRate monthlyPayment e1 maxMonths fuel s1).monthsToPayoff
  | 0, s1, s2, hm, _ => by rw [amortLoop_zero, amortLoop_zero, hm]
  | fuel + 1, s1, s2, hm, hb => by
    rw [amortLoop_succ, amortLoop_succ]
    by_cases hg2 : amortGuard maxMonths s2
    · have hg1 : amortGuard maxMonths s1 :=
        ⟨lt_of_lt_of_le hg2.1 hb, by rw [hm]; exact hg2.2⟩
      rw [if_pos hg2, if_pos hg1]
      exact amortLoop_months_mono hr he fuel _ _
        (by rw [amortStep_months, amortStep_months, hm])
        (amortStep_balance_mono hr hb he)
    · rw [if_neg hg2]
      calc s2.monthsToPayoff = s1.monthsToPayoff := hm.symm
        _ ≤ _ := by
            split
            · have h1 := amortLoop_months_le monthlyRate monthlyPayment e1 maxMonths fuel
                (amortStep monthlyRate monthlyPayment e1 s1)
              rw [amortStep_months] at h1
              omega
            · exact le_refl _

/-- If the guard holds and there is fuel, at least one iteration runs. -/
theorem amortLoop_months_pos (monthlyRate monthlyPayment extraMonthlyPayment maxMonths : ℚ)
    (fuel : ℕ) (s : LoopState) (hfuel : 1 ≤ fuel) (hg : amortGuard maxMonths s) :
    s.monthsToPayoff + 1 ≤
      (amortLoop monthlyRate monthlyPayment extraMonthlyPayment maxMonths fuel s).monthsToPayoff := by
  obtain ⟨f, rfl⟩ : ∃ f, fuel = f + 1 := ⟨fuel - 1, by omega⟩
  rw [amortLoop_succ, if_pos hg]
  calc s.monthsToPayoff + 1
      = (amortStep monthlyRate monthlyPayment extraMonthlyPayment s).monthsToPayoff :=
        (amortStep_months _ _ _ _).symm
    _ ≤ _ := amortLoop_months_le _ _ _ _ f _

/-- The schedule row appended by one loop iteration, in closed form:
`interestPaid` is the full `balance * monthlyRate` rounded, and
`principalPaid` is the full `monthlyPayment - interest + extra` rounded,
with no adjustment in the overpayment case. -/
theorem amortStep_schedule (monthlyRate monthlyPayment extraMonthlyPayment : ℚ)
    (s : LoopState) :
    (amortStep monthlyRate monthlyPayment extraMonthlyPayment s).schedule =
      s.schedule ++
        [{ paymentNumber := s.monthsToPayoff + 1
           interestPaid := round2 (s.balance * monthlyRate)
           principalPaid := round2 (monthlyPayment - s.balance * monthlyRate + extraMonthlyPayment)
           remainingBalance :=
             (amortStep monthlyRate monthlyPayment extraMonthlyPayment s).balance }] := rfl

/-- `calculateAmortization` succeeds exactly on valid inputs, and then
returns `amortResult`. -/
theorem calculateAmortization_eq_ok_iff (principal annualRate termYears extraMonthlyPayment : ℚ)
    (res : AmortizationResult) :
    calculateAmortization principal annualRate termYears extraMonthlyPayment = Except.ok res ↔
      (¬ (principal ≤ 0 ∨ annualRate < 0 ∨ termYears ≤ 0 ∨ extraMonthlyPayment < 0) ∧
        res = amortResult principal annualRate termYears extraMonthlyPayment) := by
  unfold calculateAmortization
  split_ifs with h
  · simp [h]
  · simp [h, eq_comm]

theorem amortResult_monthsToPayoff (principal annualRate termYears extraMonthlyPayment : ℚ) :
    (amortResult principal annualRate termYears extraMonthlyPayment).monthsToPayoff =
      (amortFinalState principal annualRate termYears extraMonthlyPayment).monthsToPayoff := rfl

theorem amortResult_schedule (principal annualRate termYears extraMonthlyPayment : ℚ) :
    (amortResult principal annualRate termYears extraMonthlyPayment).schedule =
      (amortFinalState principal annualRate termYears extraMonthlyPayment).schedule := rfl

theorem amortFinalState_balance_nonneg (principal annualRate termYears extraMonthlyPayment : ℚ)
    (hp : 0 ≤ principal) :
    0 ≤ (amortFinalState principal annualRate termYears extraMonthlyPayment).balance := by
  unfold amortFinalState
  exact amortLoop_preserves _ _ _ _ (fun s => 0 ≤ s.balance)
    (fun t _ => amortStep_balance_nonneg _ _ _ t) _ _ hp

theorem amortFinalState_getLast (principal annualRate termYears extraMonthlyPayment : ℚ) :
    ∀ rec, (amortFinalState principal annualRate termYears extraMonthlyPayment).schedule.getLast? =
        some rec →
      rec.remainingBalance =
        (amortFinalState principal annualRate termYears extraMonthlyPayment).balance := by
  unfold amortFinalState
  apply amortLoop_preserves _ _ _ _
    (fun s => ∀ rec, s.schedule.getLast? = some rec → rec.remainingBalance = s.balance)
  · intro s hs rec hrec
    rw [amortStep_schedule, List.getLast?_concat] at hrec
    obtain rfl := (Option.some.injEq _ _).mp hrec
    rfl
  · intro rec hrec
    simp at hrec

theorem amortFinalState_numbering (principal annualRate termYears extraMonthlyPayment : ℚ) :
    (amortFinalState principal annualRate termYears extraMonthlyPayment).schedule.map
        PaymentRecord.paymentNumber =
      List.range' 1
        (amortFinalState principal annualRate termYears extraMonthlyPayment).monthsToPayoff ∧
    (amortFinalState principal annualRate termYears extraMonthlyPayment).schedule.length =
      (amortFinalState principal annualRate termYears extraMonthlyPayment).monthsToPayoff := by
  unfold amortFinalState
  apply amortLoop_preserves _ _ _ _
    (fun s => s.schedule.map PaymentRecord.paymentNumber = List.range' 1 s.monthsToPayoff ∧
      s.schedule.length = s.monthsToPayoff)
  · intro s hs
    rw [amortStep_schedule, amortStep_months]
    constructor
    · rw [List.map_append, hs.1, List.range'_1_concat, Nat.add_comm 1 s.monthsToPayoff]
      rfl
    · rw [List.length_append, hs.2]
      rfl
  · exact ⟨rfl, rfl⟩

theorem amortFinalState_not_guard (principal annualRate termYears extraMonthlyPayment : ℚ) :
    ¬ amortGuard (termYears * 12 * 2)
      (amortFinalState principal annualRate termYears extraMonthlyPayment) := by
  unfold amortFinalState
  apply amortLoop_not_guard
  show (termYears * 12 * 2 : ℚ) ≤ ((0 : ℕ) : ℚ) + ((Int.toNat ⌈(termYears * 12 * 2 : ℚ)⌉ : ℕ) : ℚ)
  have h1 : (termYears * 12 * 2 : ℚ) ≤ ((⌈(termYears * 12 * 2 : ℚ)⌉ : ℤ) : ℚ) := Int.le_ceil _
  have h2 : ((⌈(termYears * 12 * 2 : ℚ)⌉ : ℤ) : ℚ) ≤
      ((Int.toNat ⌈(termYears * 12 * 2 : ℚ)⌉ : ℕ) : ℚ) := by
    exact_mod_cast Int.self_le_toNat _
  push_cast
  push_cast at h1 h2
  linarith

theorem amortFinalState_months_le (principal annualRate termYears extraMonthlyPayment : ℚ) :
    (amortFinalState principal annualRate termYears extraMonthlyPayment).monthsToPayoff ≤
      Int.toNat ⌈(termYears * 12 * 2 : ℚ)⌉ := by
  unfold amortFinalState
  have h := amortLoop_months_bound (annualRate / 100 / 12)
    (amortMonthlyPayment principal annualRate termYears) extraMonthlyPayment
    (termYears * 12 * 2) (Int.toNat ⌈(termYears * 12 * 2 : ℚ)⌉)
    { balance := principal, totalInterestPaid := 0, monthsToPayoff := 0, schedule := [] }
  simpa using h

theorem amortFinalState_months_pos (principal annualRate termYears extraMonthlyPayment : ℚ)
    (hp : 1 / 100 < principal) (ht : 0 < termYears) :
    1 ≤ (amortFinalState principal annualRate termYears extraMonthlyPayment).monthsToPayoff := by
  unfold amortFinalState
  have hmm : (0 : ℚ) < termYears * 12 * 2 := by positivity
  have hfuel : 1 ≤ Int.toNat ⌈(termYears * 12 * 2 : ℚ)⌉ := by
    have h2 : 0 < ⌈(termYears * 12 * 2 : ℚ)⌉ := Int.ceil_pos.mpr hmm
    omega
  have hg : amortGuard (termYears * 12 * 2)
      { balance := principal, totalInterestPaid := 0, monthsToPayoff := 0, schedule := [] } := by
    refine ⟨hp, ?_⟩
    show ((0 : ℕ) : ℚ) < termYears * 12 * 2
    push_cast
    linarith
  have h := amortLoop_months_pos (annualRate / 100 / 12)
    (amortMonthlyPayment principal annualRate termYears) extraMonthlyPayment
    (termYears * 12 * 2) (Int.toNat ⌈(termYears * 12 * 2 : ℚ)⌉)
    { balance := principal, totalInterestPaid := 0, monthsToPayoff := 0, schedule := [] }
    hfuel hg
  simpa using h

/-! ## Claim theorems -/

/-- Claim C3 (confirmed): `calculateAmortization` raises an InvalidInput
error if and only if `principal ≤ 0` or `annualRatePercent < 0` or
`termYears ≤ 0` or `extraMonthlyPayment < 0`; the validation is the first
statement of the function (lines 55-57), before any computation, and a
failed call returns no result at all (the `Except.error` carries only the
message). -/
theorem C3_invalid_input_iff_error (principal annualRate termYears extraMonthlyPayment : ℚ) :
    (∃ msg, calculateAmortization principal annualRate termYears extraMonthlyPayment =
        Except.error msg) ↔
      (principal ≤ 0 ∨ annualRate < 0 ∨ termYears ≤ 0 ∨ extraMonthlyPayment < 0) := by
  unfold calculateAmortization
  split_ifs with h
  · exact ⟨fun _ => h, fun _ => ⟨_, rfl⟩⟩
  · constructor
    · rintro ⟨msg, hmsg⟩
      exact absurd hmsg (by simp)
    · exact fun hv => absurd hv h

/-- Claim C8 (confirmed): for every successful call, the schedule length
equals the returned `monthsToPayoff`, and the payment numbers are
sequential starting at 1 (the k-th entry, 1-based, has
`paymentNumber = k`, i.e. the numbers form `List.range' 1 monthsToPayoff`). -/
theorem C8_schedule_length_numbering (principal annualRate termYears extraMonthlyPayment : ℚ)
    (res : AmortizationResult)
    (h : calculateAmortization principal annualRate termYears extraMonthlyPayment =
      Except.ok res) :
    res.schedule.length = res.monthsToPayoff ∧
    res.schedule.map PaymentRecord.paymentNumber = List.range' 1 res.monthsToPayoff := by
  rw [calculateAmortization_eq_ok_iff] at h
  obtain ⟨hv, rfl⟩ := h
  rw [amortResult_schedule, amortResult_monthsToPayoff]
  exact ⟨(amortFinalState_numbering principal annualRate termYears extraMonthlyPayment).2,
    (amortFinalState_numbering principal annualRate termYears extraMonthlyPayment).1⟩

/-- Witness for C8 at `calculateAmortization 2 0 (1/6) 0`. -/
theorem C8_witness :
    ([{ paymentNumber := 1, interestPaid := 0, principalPaid := 1, remainingBalance := 1 },
      { paymentNumber := 2, interestPaid := 0, principalPaid := 1, remainingBalance := 0 }] :
        List PaymentRecord).length = 2 ∧
    ([{ paymentNumber := 1, interestPaid := 0, principalPaid := 1, remainingBalance := 1 },
      { paymentNumber := 2, interestPaid := 0, principalPaid := 1, remainingBalance := 0 }] :
        List PaymentRecord).map PaymentRecord.paymentNumber = List.range' 1 2 :=
  C8_schedule_length_numbering 2 0 (1/6) 0
    { monthsToPayoff := 2, totalInterestPaid := 0, totalInterestSaved := 0, monthlyPayment := 1,
      schedule :=
        [{ paymentNumber := 1, interestPaid := 0, principalPaid := 1, remainingBalance := 1 },
         { paymentNumber := 2, interestPaid := 0, principalPaid := 1, remainingBalance := 0 }] }
    (by decide)

/-- Claim C2 (corrected): the original claim says the last entry's
`remainingBalance` equals 0 whenever `monthsToPayoff < 2 × totalMonths`;
the loop in fact exits as soon as the balance drops to at most 0.01
(line 92), so the last recorded balance can be a leftover cent.  The
amended statement: the last entry's `remainingBalance` lies in `[0, 0.01]`. -/
theorem C2_last_balance_within_tolerance
    (principal annualRate termYears extraMonthlyPayment : ℚ)
    (res : AmortizationResult) (rec : PaymentRecord)
    (h : calculateAmortization principal annualRate termYears extraMonthlyPayment =
      Except.ok res)
    (hcap : (res.monthsToPayoff : ℚ) < 2 * (termYears * 12))
    (hlast : res.schedule.getLast? = some rec) :
    0 ≤ rec.remainingBalance ∧ rec.remainingBalance ≤ 1 / 100 := by
  rw [calculateAmortization_eq_ok_iff] at h
  obtain ⟨hv, rfl⟩ := h
  push_neg at hv
  rw [amortResult_schedule] at hlast
  rw [amortResult_monthsToPayoff] at hcap
  have hbal := amortFinalState_getLast principal annualRate termYears extraMonthlyPayment rec hlast
  have hng := amortFinalState_not_guard principal annualRate termYears extraMonthlyPayment
  have hmonths : ((amortFinalState principal annualRate termYears
      extraMonthlyPayment).monthsToPayoff : ℚ) < termYears * 12 * 2 := by linarith
  have hble : (amortFinalState principal annualRate termYears extraMonthlyPayment).balance ≤
      1 / 100 := by
    by_contra hgt
    exact hng ⟨lt_of_not_le hgt, hmonths⟩
  rw [hbal]
  exact ⟨amortFinalState_balance_nonneg principal annualRate termYears extraMonthlyPayment
    (le_of_lt hv.1), hble⟩

/-- Counterexample to C2 as stated: for principal 12.01, rate 0, term 1
year, no extra payment, the loop exits after 12 months (before the
safety cap of 24) with a last recorded balance of 0.01, not 0. -/
theorem C2_counterexample :
    (calculateAmortization (1201/100) 0 1 0).map
        (fun res => (res.monthsToPayoff,
          res.schedule.getLast?.map PaymentRecord.remainingBalance)) =
      Except.ok (12, some (1/100)) ∧
    ((12 : ℕ) : ℚ) < 2 * ((1 : ℚ) * 12) ∧ (1/100 : ℚ) ≠ 0 := by decide

/-- Witness for C2 at `calculateAmortization 2 0 (1/6) 0` (2 months,
below the cap of 4; the last entry's balance is 0). -/
theorem C2_witness : (0 : ℚ) ≤ 0 ∧ (0 : ℚ) ≤ 1 / 100 :=
  C2_last_balance_within_tolerance 2 0 (1/6) 0
    { monthsToPayoff := 2, totalInterestPaid := 0, totalInterestSaved := 0, monthlyPayment := 1,
      schedule :=
        [{ paymentNumber := 1, interestPaid := 0, principalPaid := 1, remainingBalance := 1 },
         { paymentNumber := 2, interestPaid := 0, principalPaid := 1, remainingBalance := 0 }] }
    { paymentNumber := 2, interestPaid := 0, principalPaid := 1, remainingBalance := 0 }
    (by decide) (by norm_num) (by decide)

/-- Claim C9 (corrected): the original claim says every valid input
(`principal > 0`) yields `monthsToPayoff ≥ 1`; in fact the loop guard
`balance > 0.01` (line 92) never fires when `principal ≤ 0.01`, so the
claim holds exactly for `principal > 0.01`. -/
theorem C9_months_pos (principal annualRate termYears extraMonthlyPayment : ℚ)
    (res : AmortizationResult) (hp : 1 / 100 < principal)
    (h : calculateAmortization principal annualRate termYears extraMonthlyPayment =
      Except.ok res) :
    1 ≤ res.monthsToPayoff := by
  rw [calculateAmortization_eq_ok_iff] at h
  obtain ⟨hv, rfl⟩ := h
  push_neg at hv
  rw [amortResult_monthsToPayoff]
  exact amortFinalState_months_pos principal annualRate termYears extraMonthlyPayment hp hv.2.2.1

/-- Counterexample to C9 as stated: principal 0.005 is a valid input
(positive), but the loop never runs: `monthsToPayoff = 0` and the
schedule is empty. -/
theorem C9_counterexample :
    (0 : ℚ) < 1/200 ∧
    (calculateAmortization (1/200) 0 1 0).map
        (fun res => (res.monthsToPayoff, res.schedule.length)) = Except.ok (0, 0) ∧
    ¬ (1 ≤ (0 : ℕ)) := by decide

/-- Witness for C9 at `calculateAmortization 2 0 (1/6) 1`. -/
theorem C9_witness : 1 ≤ 1 :=
  C9_months_pos 2 0 (1/6) 1
    { monthsToPayoff := 1, totalInterestPaid := 0, totalInterestSaved := 0, monthlyPayment := 1,
      schedule :=
        [{ paymentNumber := 1, interestPaid := 0, principalPaid := 2, remainingBalance := 0 }] }
    (by norm_num) (by decide)

/-- Claim C5 (corrected): the original claim asserts that a larger
`extraMonthlyPayment` never increases `monthsToPayoff` and never
increases `totalInterestPaid`.  The months part holds (proved here); the
interest part is false, because the final-month overpayment adjustment
(lines 115-120) can floor the smaller-extra run's reported interest to 0
while the larger-extra run pays off exactly and keeps its full interest
(see the counterexample).  Amended claim: the run with the larger
`extraMonthlyPayment` returns a `monthsToPayoff` that is not larger. -/
theorem C5_months_antitone (principal annualRate termYears e1 e2 : ℚ)
    (res1 res2 : AmortizationResult) (he : e1 ≤ e2)
    (h1 : calculateAmortization principal annualRate termYears e1 = Except.ok res1)
    (h2 : calculateAmortization principal annualRate termYears e2 = Except.ok res2) :
    res2.monthsToPayoff ≤ res1.monthsToPayoff := by
  rw [calculateAmortization_eq_ok_iff] at h1 h2
  obtain ⟨hv, rfl⟩ := h1
  obtain ⟨hv2, rfl⟩ := h2
  push_neg at hv
  rw [amortResult_monthsToPayoff, amortResult_monthsToPayoff]
  unfold amortFinalState
  have hr : 0 ≤ annualRate / 100 / 12 :=
    div_nonneg (div_nonneg hv.2.1 (by norm_num)) (by norm_num)
  exact amortLoop_months_mono hr he _ _ _ rfl (le_refl _)

set_option maxRecDepth 40000 in
/-- Counterexample to C5 as stated: for principal 100, rate 2, term 1
year, raising the extra payment from 0 to 0.01 lowers the payoff from 13
to 12 months but raises the reported `totalInterestPaid` from 0 to 1.02
(the 13-month run's final overpayment floors its interest total to 0). -/
theorem C5_counterexample :
    (0 : ℚ) ≤ 1/100 ∧
    (calculateAmortization 100 2 1 0).map AmortizationResult.totalInterestPaid =
      Except.ok 0 ∧
    (calculateAmortization 100 2 1 (1/100)).map AmortizationResult.totalInterestPaid =
      Except.ok (51/50) ∧
    ¬ ((51/50 : ℚ) ≤ 0) := by decide

/-- Witness for C5 at `calculateAmortization 2 0 (1/6)` with extra
payments 0 and 1 (payoff in 2 months resp. 1 month). -/
theorem C5_witness : 1 ≤ 2 :=
  C5_months_antitone 2 0 (1/6) 0 1
    { monthsToPayoff := 2, totalInterestPaid := 0, totalInterestSaved := 0, monthlyPayment := 1,
      schedule :=
        [{ paymentNumber := 1, interestPaid := 0, principalPaid := 1, remainingBalance := 1 },
         { paymentNumber := 2, interestPaid := 0, principalPaid := 1, remainingBalance := 0 }] }
    { monthsToPayoff := 1, totalInterestPaid := 0, totalInterestSaved := 0, monthlyPayment := 1,
      schedule :=
        [{ paymentNumber := 1, interestPaid := 0, principalPaid := 2, remainingBalance := 0 }] }
    (by norm_num) (by decide) (by decide)

/-- Claim C7 (corrected): the loop always terminates and hitting the
safety cap returns a normal result (the model is a total function whose
`Except.ok` case is characterised by `calculateAmortization_eq_ok_iff`,
independent of the loop's outcome).  But the original bound
`monthsToPayoff ≤ 2 × totalMonths` fails for fractional `termYears`
(the guard `monthsToPayoff < maxMonths` compares an integer against a
non-integer bound, see the counterexample); the amended bound is
`monthsToPayoff ≤ ⌈2 × totalMonths⌉`, and the schedule likewise has at
most `⌈2 × totalMonths⌉` entries. -/
theorem C7_months_capped (principal annualRate termYears extraMonthlyPayment : ℚ)
    (res : AmortizationResult)
    (h : calculateAmortization principal annualRate termYears extraMonthlyPayment =
      Except.ok res) :
    res.monthsToPayoff ≤ Int.toNat ⌈(2 * (termYears * 12) : ℚ)⌉ ∧
    res.schedule.length ≤ Int.toNat ⌈(2 * (termYears * 12) : ℚ)⌉ := by
  rw [calculateAmortization_eq_ok_iff] at h
  obtain ⟨hv, rfl⟩ := h
  rw [amortResult_schedule, amortResult_monthsToPayoff]
  have hcap : (2 * (termYears * 12) : ℚ) = termYears * 12 * 2 := by ring
  rw [hcap]
  refine ⟨amortFinalState_months_le principal annualRate termYears extraMonthlyPayment, ?_⟩
  rw [(amortFinalState_numbering principal annualRate termYears extraMonthlyPayment).2]
  exact amortFinalState_months_le principal annualRate termYears extraMonthlyPayment

/-- Counterexample to C7 as stated: for termYears = 1/25 the cap
`2 × totalMonths` is 0.96, yet the loop runs one month, so
`monthsToPayoff = 1 > 0.96`. -/
theorem C7_counterexample :
    (calculateAmortization 100 0 (1/25) 0).map AmortizationResult.monthsToPayoff =
      Except.ok 1 ∧
    ¬ (((1 : ℕ) : ℚ) ≤ 2 * ((1/25 : ℚ) * 12)) := by decide

/-- Witness for C7 at `calculateAmortization 2 0 (1/6) 0`. -/
theorem C7_witness :
    2 ≤ Int.toNat ⌈(2 * ((1/6 : ℚ) * 12) : ℚ)⌉ ∧
    ([{ paymentNumber := 1, interestPaid := 0, principalPaid := 1, remainingBalance := 1 },
      { paymentNumber := 2, interestPaid := 0, principalPaid := 1, remainingBalance := 0 }] :
        List PaymentRecord).length ≤ Int.toNat ⌈(2 * ((1/6 : ℚ) * 12) : ℚ)⌉ :=
  C7_months_capped 2 0 (1/6) 0
    { monthsToPayoff := 2, totalInterestPaid := 0, totalInterestSaved := 0, monthlyPayment := 1,
      schedule :=
        [{ paymentNumber := 1, interestPaid := 0, principalPaid := 1, remainingBalance := 1 },
         { paymentNumber := 2, interestPaid := 0, principalPaid := 1, remainingBalance := 0 }] }
    (by decide)

/-- Claim C4 (confirmed): on valid inputs, `calculateRefinanceBreakEven`
returns `{breakEvenMonths: null, monthlySavings unrounded, isValid:
false}` when the savings are non-positive, and otherwise
`breakEvenMonths = closingCosts / monthlySavings` rounded to 2 decimals,
`monthlySavings` rounded to 2 decimals, and `isValid = true`
(`totalSavingsOverRemainingTerm` is always absent). -/
theorem C4_breakEven_spec (originalMonthlyPayment newMonthlyPayment closingCosts : ℚ)
    (ho : 0 < originalMonthlyPayment) (hn : 0 ≤ newMonthlyPayment) (hc : 0 ≤ closingCosts) :
    calculateRefinanceBreakEven originalMonthlyPayment newMonthlyPayment closingCosts =
      (if originalMonthlyPayment - newMonthlyPayment ≤ 0 then
        Except.ok
          { breakEvenMonths := none
            monthlySavings := originalMonthlyPayment - newMonthlyPayment
            totalSavingsOverRemainingTerm := none
            isValid := false }
      else
        Except.ok
          { breakEvenMonths :=
              some (round2 (closingCosts / (originalMonthlyPayment - newMonthlyPayment)))
            monthlySavings := round2 (originalMonthlyPayment - newMonthlyPayment)
            totalSavingsOverRemainingTerm := none
            isValid := true }) := by
  unfold calculateRefinanceBreakEven
  rw [if_neg]
  push_neg
  exact ⟨ho, hn, hc⟩

/-- Witness for C4: the spec scenario
`computeBreakEven(2000, 1700, 3000) → monthlySavings = 300,
breakEvenMonths = 10.00, isValid = true`. -/
theorem C4_witness :
    calculateRefinanceBreakEven 2000 1700 3000 =
      Except.ok
        { breakEvenMonths := some 10
          monthlySavings := 300
          totalSavingsOverRemainingTerm := none
          isValid := true } := by
  rw [C4_breakEven_spec 2000 1700 3000 (by norm_num) (by norm_num) (by norm_num)]
  decide

/-- Claim C6 (corrected): the original claim says
`calculateMonthlyPayment` always returns a whole number of cents, even
at rate 0; but the zero-rate branch (line 224) returns
`principal / totalMonths` unrounded (see the counterexample).  Amended
claim: for every nonzero rate the result is a whole number of cents,
and at rate 0 (on in-range principal and term) the result is exactly
`principal / (termYears * 12)`, unrounded. -/
theorem C6_rounding (principal annualRate termYears : ℚ) :
    (annualRate ≠ 0 → isCents (calculateMonthlyPayment principal annualRate termYears)) ∧
    (annualRate = 0 → 0 < principal → 0 < termYears →
      calculateMonthlyPayment principal annualRate termYears =
        principal / (termYears * 12)) := by
  constructor
  · intro hr
    unfold calculateMonthlyPayment
    by_cases h1 : principal ≤ 0 ∨ termYears ≤ 0
    · rw [if_pos h1]
      decide
    · have hne : annualRate / 100 / 12 ≠ 0 := fun h0 => hr (by
        field_simp at h0
        exact h0)
      rw [if_neg h1, if_neg hne]
      exact isCents_round2 _
  · intro hr hp ht
    unfold calculateMonthlyPayment
    rw [if_neg (by push_neg; exact ⟨hp, ht⟩), if_pos (by rw [hr]; norm_num)]

/-- Counterexample to C6 as stated: at rate 0, principal 100, term 1
year the function returns 100/12 = 25/3, which is not a whole number of
cents. -/
theorem C6_counterexample :
    calculateMonthlyPayment 100 0 1 = 25/3 ∧
    ¬ isCents (calculateMonthlyPayment 100 0 1) := by decide

/-- Witness for C6 at rate 6 (cents) and rate 0 (exact division). -/
theorem C6_witness :
    isCents (calculateMonthlyPayment 100 6 1) ∧
    calculateMonthlyPayment 100 0 1 = 100 / (1 * 12) :=
  ⟨(C6_rounding 100 6 1).1 (by norm_num),
   (C6_rounding 100 0 1).2 rfl (by norm_num) (by norm_num)⟩

set_option maxRecDepth 200000 in
/-- Claim C10 (confirmed): in an overpayment month the appended record
is not adjusted: for principal 100, rate 12, term 1 year, extra 200, the
single month overpays; the recorded `interestPaid` is the full
`balance * monthlyRate` rounded (`round2 (100 * (12/100/12)) = 1`), the
recorded `principalPaid` is the full
`monthlyPayment - interest + extra` rounded
(`round2 (222/25 - 1 + 200) = 5197/25 = 207.88`), which exceeds the 100
actually owed; only the aggregate `totalInterestPaid` is corrected (to
0), so the schedule's `interestPaid` sum (1) exceeds it. -/
theorem C10_overpayment_record_unadjusted :
    calculateAmortization 100 12 1 200 =
      Except.ok
        { monthsToPayoff := 1
          totalInterestPaid := 0
          totalInterestSaved := 164/25
          monthlyPayment := 222/25
          schedule :=
            [{ paymentNumber := 1, interestPaid := 1, principalPaid := 5197/25,
               remainingBalance := 0 }] } ∧
    round2 (100 * (12 / 100 / 12)) = 1 ∧
    round2 (222/25 - 100 * (12 / 100 / 12) + 200) = 5197/25 ∧
    (100 : ℚ) < 5197/25 ∧
    (0 : ℚ) <
      (List.map PaymentRecord.interestPaid
        [{ paymentNumber := 1, interestPaid := 1, principalPaid := 5197/25,
           remainingBalance := 0 }]).sum := by decide

set_option maxRecDepth 1000000 in
set_option maxHeartbeats 1000000 in
set_option exponentiation.threshold 400 in
/-- Counterexample to C1 as stated: for principal 300000, rate 6, term
30 years, no extra payment, the code requires 361 months, not 360: the
payment 1798.65 is the exact annuity payment rounded down by a fraction
of a cent, so a balance of 1.44 survives month 360. -/
theorem C1_counterexample :
    (calculateAmortization 300000 6 30 0).map AmortizationResult.monthsToPayoff ≠
      Except.ok 360 := by decide

set_option maxRecDepth 1000000 in
set_option maxHeartbeats 1000000 in
set_option exponentiation.threshold 400 in
/-- Claim C1 (corrected): the spec scenario with `monthsToPayoff`
amended from 360 to 361: `monthlyPayment = 1798.65`, the first schedule
entry has `interestPaid = 1500.00` and `principalPaid = 298.65`, and
`monthsToPayoff = 361`. -/
theorem C1_scenario :
    (calculateAmortization 300000 6 30 0).map
      (fun res => (res.monthsToPayoff, res.monthlyPayment,
        res.schedule.head?.map (fun rec => (rec.interestPaid, rec.principalPaid)))) =
    Except.ok (361, 179865/100, some (1500, 29865/100)) := by decide
